import Mathlib

/-!
Verification of the kimdb Python client SDK (packages/kimdb-python/kimdb)
against its natural-language specification.

The development shallowly embeds the two source modules:
  * `client.py`   — the synchronous REST client (`KimDBClient`), in
    particular the `_request` retry loop, `get_collection` parameter
    marshalling and the `group_by` fold;
  * `websocket.py` — the event-channel client (`KimDBWebSocket`): outbound
    action guards, inbound message dispatch and the `connect` control flow.

JSON values are modelled by the inductive `Json` below.  Numbers are
restricted to integers (every number appearing in the source's contracts is
an integer).  A Python `requests` response is modelled by `HTTPResponse`,
whose `body` field is `none` when `response.text` is empty and `some j`
when the body text parses as the JSON value `j`; responses whose nonempty
body is not valid JSON are outside the embedded domain (no claim touches
them).
-/

/-- JSON values (numbers restricted to integers). -/
inductive Json
  | null
  | bool (b : Bool)
  | num (n : Int)
  | str (s : String)
  | arr (elems : List Json)
  | obj (fields : List (String × Json))

/-- Python exceptions that can arise in `client.py`'s request path.
`requestException` corresponds to `requests.RequestException` (the only
class caught by the retry loop); `keyError`, `typeError` and
`attributeError` model the builtin exceptions that `group_by` /
`_handle_message` can raise and that the loop does not catch. -/
inductive KimError
  | requestException (msg : Json)
  | keyError
  | typeError
  | attributeError

/-- A `requests` response: `ok` is `response.ok`, `status_code` and
`reason` the HTTP status data, and `body` the parsed JSON body
(`none` models an empty `response.text`). -/
structure HTTPResponse where
  ok : Bool
  status_code : Nat
  reason : String
  body : Option Json

/-- Outcome of one `self.session.request(...)` call: either the transport
raised a `requests.RequestException` with the given message, or a response
object came back. -/
inductive AttemptResult
  | transportError (msg : String)
  | response (resp : HTTPResponse)

/-- The error message built at `client.py:110-111` for a non-ok response:
`error_data = response.json() if response.text else {'error': response.reason}`
followed by `error_data.get('error', f'HTTP {response.status_code}')`.
Raises `AttributeError` when the nonempty body is not a JSON object
(`.get` on a non-dict). -/
def attemptErrorMsg (resp : HTTPResponse) : Except KimError Json :=
  let errorData : Json :=
    match resp.body with
    | some j => j
    | none => Json.obj [("error", Json.str resp.reason)]
  match errorData with
  | Json.obj fields =>
      Except.ok ((fields.lookup "error").getD (Json.str ("HTTP " ++ toString resp.status_code)))
  | _ => Except.error KimError.attributeError

/-- One iteration of the `try:` block of `_request` (`client.py:100-113`):
a transport error raises `RequestException`; a non-ok response raises
`RequestException` carrying `attemptErrorMsg`; an ok response returns
`response.json()` (an empty ok body raises the decode error, which modern
`requests` exposes as a `RequestException` subclass). -/
def runAttempt (r : AttemptResult) : Except KimError Json :=
  match r with
  | AttemptResult.transportError m => Except.error (KimError.requestException (Json.str m))
  | AttemptResult.response resp =>
      if resp.ok then
        match resp.body with
        | some j => Except.ok j
        | none => Except.error (KimError.requestException (Json.str "JSONDecodeError"))
      else
        match attemptErrorMsg resp with
        | Except.ok m => Except.error (KimError.requestException m)
        | Except.error e => Except.error e

/-- Events observable from the retry loop: an HTTP attempt with its
0-based index, or a `time.sleep` of the given number of time units. -/
inductive Ev
  | att (i : Nat)
  | sleep (t : Nat)

/-- The body of the `for attempt in range(self.retries + 1)` loop of
`_request` (`client.py:99-122`), with `rem` the number of loop iterations
still available (including the current one), `i` the current attempt index
and `last` the `last_error` variable.  When the iterations are exhausted it
raises `last_error or requests.RequestException('Unknown error')`.  A
successful attempt returns at once; a `RequestException` is recorded and,
when the current attempt is not the final slot (`attempt < self.retries`,
i.e. `rem > 0` after this attempt), is followed by
`time.sleep(1 * (attempt + 1))`; any other exception propagates uncaught.
The first component is the trace of attempts and sleeps. -/
def reqGo (oracle : Nat → Except KimError Json) :
    Nat → Nat → Option KimError → List Ev × Except KimError Json
  | _, 0, last =>
      ([], Except.error (last.getD (KimError.requestException (Json.str "Unknown error"))))
  | i, rem + 1, _ =>
      match oracle i with
      | Except.ok j => ([Ev.att i], Except.ok j)
      | Except.error (KimError.requestException m) =>
          let r := reqGo oracle (i + 1) rem (some (KimError.requestException m))
          if 0 < rem then (Ev.att i :: Ev.sleep (i + 1) :: r.fst, r.snd)
          else (Ev.att i :: r.fst, r.snd)
      | Except.error e => ([Ev.att i], Except.error e)

namespace KimDBClient

/-- `KimDBClient._request` (`client.py:74-122`), abstracted over the
network: `net i` is the outcome of the `i`-th `session.request` call.
`retries` is the integer configured on the client; Python's
`range(retries + 1)` yields `(retries + 1).toNat` iterations. -/
def _request (retries : Int) (net : Nat → AttemptResult) :
    List Ev × Except KimError Json :=
  reqGo (fun i => runAttempt (net i)) 0 (retries + 1).toNat none

end KimDBClient

/-- Number of HTTP attempts recorded in a trace. -/
def countAtt : List Ev → Nat
  | [] => 0
  | Ev.att _ :: rest => countAtt rest + 1
  | Ev.sleep _ :: rest => countAtt rest

/-- The sleep durations of a trace, in order. -/
def sleepsOf : List Ev → List Nat
  | [] => []
  | Ev.sleep t :: rest => t :: sleepsOf rest
  | Ev.att _ :: rest => sleepsOf rest

/-- A trace is well spaced when every sleep is immediately preceded and
immediately followed by an attempt (so sleeps occur only between
consecutive attempts and never trail the final attempt). -/
def wellSpaced : List Ev → Bool
  | [] => true
  | [Ev.att _] => true
  | Ev.att _ :: Ev.att j :: rest => wellSpaced (Ev.att j :: rest)
  | Ev.att _ :: Ev.sleep _ :: Ev.att j :: rest => wellSpaced (Ev.att j :: rest)
  | _ => false

section ReqGoLemmas

variable (oracle : Nat → Except KimError Json)

theorem reqGo_succ_eq (i rem : Nat) (last : Option KimError) :
    reqGo oracle i (rem + 1) last =
      match oracle i with
      | Except.ok j => ([Ev.att i], Except.ok j)
      | Except.error (KimError.requestException m) =>
          let r := reqGo oracle (i + 1) rem (some (KimError.requestException m))
          if 0 < rem then (Ev.att i :: Ev.sleep (i + 1) :: r.fst, r.snd)
          else (Ev.att i :: r.fst, r.snd)
      | Except.error e => ([Ev.att i], Except.error e) := by
  simp [reqGo]

theorem reqGo_head (rem i : Nat) (last : Option KimError) (h : 0 < rem) :
    ∃ tl, (reqGo oracle i rem last).fst = Ev.att i :: tl := by
  cases rem with
  | zero => omega
  | succ r =>
      cases ho : oracle i with
      | ok j => exact ⟨[], by simp [reqGo, ho]⟩
      | error e =>
          cases e with
          | requestException m =>
              by_cases hr : 0 < r
              · refine ⟨Ev.sleep (i + 1) ::
                  (reqGo oracle (i + 1) r (some (KimError.requestException m))).fst, ?_⟩
                simp [reqGo, ho, hr]
              · refine ⟨(reqGo oracle (i + 1) r (some (KimError.requestException m))).fst, ?_⟩
                simp [reqGo, ho, hr]
          | keyError => exact ⟨[], by simp [reqGo, ho]⟩
          | typeError => exact ⟨[], by simp [reqGo, ho]⟩
          | attributeError => exact ⟨[], by simp [reqGo, ho]⟩

theorem countAtt_reqGo_le (rem : Nat) : ∀ (i : Nat) (last : Option KimError),
    countAtt (reqGo oracle i rem last).fst ≤ rem := by
  induction rem with
  | zero => intro i last; simp [reqGo, countAtt]
  | succ r ih =>
      intro i last
      cases ho : oracle i with
      | ok j => simp [reqGo, ho, countAtt]
      | error e =>
          cases e with
          | requestException m =>
              by_cases hr : 0 < r
              · simpa [reqGo, ho, hr, countAtt] using ih (i + 1) _
              · simpa [reqGo, ho, hr, countAtt] using ih (i + 1) _
          | keyError => simp [reqGo, ho, countAtt]
          | typeError => simp [reqGo, ho, countAtt]
          | attributeError => simp [reqGo, ho, countAtt]

theorem countAtt_reqGo_pos (rem i : Nat) (last : Option KimError) (h : 0 < rem) :
    1 ≤ countAtt (reqGo oracle i rem last).fst := by
  obtain ⟨tl, htl⟩ := reqGo_head oracle rem i last h
  simp [htl, countAtt]

theorem reqGo_exhaust
    (hall : ∀ k, ∃ m, oracle k = Except.error (KimError.requestException m)) :
    ∀ (rem i : Nat) (last : Option KimError),
      (reqGo oracle i (rem + 1) last).snd = oracle (i + rem) := by
  intro rem
  induction rem with
  | zero =>
      intro i last
      obtain ⟨m, hm⟩ := hall i
      simp [reqGo, hm]
  | succ r ih =>
      intro i last
      obtain ⟨m, hm⟩ := hall i
      have h2 : (reqGo oracle (i + 1) (r + 1) (some (KimError.requestException m))).snd
          = oracle (i + 1 + r) := ih (i + 1) _
      have h3 : i + 1 + r = i + (r + 1) := by omega
      rw [h3] at h2
      rw [reqGo_succ_eq, hm]
      simp [h2]

theorem reqGo_success (N : Nat) (S : Json)
    (hfail : ∀ k, k < N → ∃ m, oracle k = Except.error (KimError.requestException m))
    (hS : oracle N = Except.ok S) :
    ∀ (rem i : Nat) (last : Option KimError), i ≤ N → N < i + rem →
      (reqGo oracle i rem last).snd = Except.ok S := by
  intro rem
  induction rem with
  | zero => intro i last h1 h2; omega
  | succ r ih =>
      intro i last h1 h2
      rcases Nat.eq_or_lt_of_le h1 with heq | hlt
      · subst heq
        simp [reqGo, hS]
      · obtain ⟨m, hm⟩ := hfail i hlt
        have hr : 0 < r := by omega
        have := ih (i + 1) (some (KimError.requestException m)) (by omega) (by omega)
        simp [reqGo, hm, hr, this]

theorem wellSpaced_reqGo (rem : Nat) : ∀ (i : Nat) (last : Option KimError),
    wellSpaced (reqGo oracle i rem last).fst = true := by
  induction rem with
  | zero => intro i last; simp [reqGo, wellSpaced]
  | succ r ih =>
      intro i last
      cases ho : oracle i with
      | ok j => simp [reqGo, ho, wellSpaced]
      | error e =>
          cases e with
          | requestException m =>
              by_cases hr : 0 < r
              · obtain ⟨tl, htl⟩ :=
                  reqGo_head oracle r (i + 1) (some (KimError.requestException m)) hr
                have hih := ih (i + 1) (some (KimError.requestException m))
                rw [htl] at hih
                rw [reqGo_succ_eq, ho]
                simp only [hr, if_pos, htl]
                simpa [wellSpaced] using hih
              · have hr0 : r = 0 := by omega
                subst hr0
                simp [reqGo, ho, wellSpaced]
          | keyError => simp [reqGo, ho, wellSpaced]
          | typeError => simp [reqGo, ho, wellSpaced]
          | attributeError => simp [reqGo, ho, wellSpaced]

theorem sleepsOf_reqGo (rem : Nat) : ∀ (i : Nat) (last : Option KimError),
    ∃ k, sleepsOf (reqGo oracle i rem last).fst = List.range' (i + 1) k := by
  induction rem with
  | zero => intro i last; exact ⟨0, by simp [reqGo, sleepsOf]⟩
  | succ r ih =>
      intro i last
      cases ho : oracle i with
      | ok j => exact ⟨0, by simp [reqGo, ho, sleepsOf]⟩
      | error e =>
          cases e with
          | requestException m =>
              by_cases hr : 0 < r
              · obtain ⟨k, hk⟩ := ih (i + 1) (some (KimError.requestException m))
                refine ⟨k + 1, ?_⟩
                rw [reqGo_succ_eq, ho]
                simp only [hr, if_pos]
                simp [sleepsOf, hk, List.range'_succ]
              · have hr0 : r = 0 := by omega
                subst hr0
                exact ⟨0, by simp [reqGo, ho, sleepsOf]⟩
          | keyError => exact ⟨0, by simp [reqGo, ho, sleepsOf]⟩
          | typeError => exact ⟨0, by simp [reqGo, ho, sleepsOf]⟩
          | attributeError => exact ⟨0, by simp [reqGo, ho, sleepsOf]⟩

end ReqGoLemmas

/-- C1 counterexample: the claim quantifies over every integer `retries`
value, but with `retries = -1` the loop `for attempt in range(self.retries + 1)`
runs zero times, so no HTTP attempt at all is made and the generic
`RequestException('Unknown error')` is raised — contradicting "the request
operation makes at least one HTTP attempt". -/
theorem C1_counterexample :
    countAtt (KimDBClient._request (-1)
      (fun _ => AttemptResult.transportError "refused")).fst = 0 ∧
    (KimDBClient._request (-1) (fun _ => AttemptResult.transportError "refused")).snd
      = Except.error (KimError.requestException (Json.str "Unknown error")) := by
  constructor <;> rfl

/-- C1 (amended): for every retries value that is at least 0, `_request`
makes at least one HTTP attempt, makes at most `retries + 1` attempts, and
when every attempt fails with a `RequestException` it raises the error of
the final attempt (attempt index `retries`); the generic unknown-error can
only arise for negative `retries`, where no attempt is made. -/
theorem C1_amended (retries : Int) (hr : 0 ≤ retries) (net : Nat → AttemptResult) :
    1 ≤ countAtt (KimDBClient._request retries net).fst ∧
    countAtt (KimDBClient._request retries net).fst ≤ (retries + 1).toNat ∧
    ((∀ i, ∃ m, runAttempt (net i) = Except.error (KimError.requestException m)) →
      (KimDBClient._request retries net).snd = runAttempt (net retries.toNat)) := by
  have htot : (retries + 1).toNat = retries.toNat + 1 := by omega
  unfold KimDBClient._request
  rw [htot]
  refine ⟨?_, ?_, ?_⟩
  · exact countAtt_reqGo_pos _ _ 0 none (Nat.succ_pos _)
  · exact countAtt_reqGo_le _ _ 0 none
  · intro hall
    have h := reqGo_exhaust (fun i => runAttempt (net i)) hall retries.toNat 0 none
    simpa using h

/-- Witness for C1 (amended) at `retries = 1` with every attempt failing:
two attempts are made and the second attempt's error is raised. -/
theorem C1_amended_witness :
    1 ≤ countAtt (KimDBClient._request 1
      (fun _ => AttemptResult.transportError "refused")).fst ∧
    countAtt (KimDBClient._request 1
      (fun _ => AttemptResult.transportError "refused")).fst ≤ ((1 : Int) + 1).toNat ∧
    (KimDBClient._request 1 (fun _ => AttemptResult.transportError "refused")).snd
      = Except.error (KimError.requestException (Json.str "refused")) := by
  have h := C1_amended 1 (by norm_num) (fun _ => AttemptResult.transportError "refused")
  exact ⟨h.1, h.2.1, (h.2.2 (fun i => ⟨Json.str "refused", rfl⟩)).trans rfl⟩

/-- C2: if the first `N` attempts fail transiently and attempt `N`
succeeds with `N ≤ retries`, `_request` returns the JSON of the successful
response; if all `retries + 1` attempts fail, it raises the error from the
last attempt (index `retries`). -/
theorem C2_retry_outcomes (retries N : Nat) (hN : N ≤ retries)
    (net netF : Nat → AttemptResult) (S : Json)
    (hfail : ∀ k, k < N →
      ∃ m, runAttempt (net k) = Except.error (KimError.requestException m))
    (hS : runAttempt (net N) = Except.ok S)
    (hallF : ∀ k,
      ∃ m, runAttempt (netF k) = Except.error (KimError.requestException m)) :
    (KimDBClient._request (retries : Int) net).snd = Except.ok S ∧
    (KimDBClient._request (retries : Int) netF).snd = runAttempt (netF retries) := by
  have htot : ((retries : Int) + 1).toNat = retries + 1 := by omega
  constructor
  · unfold KimDBClient._request
    rw [htot]
    exact reqGo_success _ N S hfail hS (retries + 1) 0 none (by omega) (by omega)
  · unfold KimDBClient._request
    rw [htot]
    have h := reqGo_exhaust (fun i => runAttempt (netF i)) hallF retries 0 none
    simpa using h

/-- Witness for C2 at `retries = 3`, `N = 2`: two transient failures then
a success yield the successful JSON, and four failures raise the error of
attempt 3. -/
theorem C2_retry_outcomes_witness :
    (KimDBClient._request ((3 : Nat) : Int)
        (fun i => if i < 2 then AttemptResult.transportError ("e" ++ toString i)
                  else AttemptResult.response ⟨true, 200, "OK", some (Json.num 7)⟩)).snd
      = Except.ok (Json.num 7) ∧
    (KimDBClient._request ((3 : Nat) : Int)
        (fun i => AttemptResult.transportError ("e" ++ toString i))).snd
      = Except.error (KimError.requestException (Json.str ("e" ++ toString 3))) := by
  have h := C2_retry_outcomes 3 2 (by norm_num)
    (fun i => if i < 2 then AttemptResult.transportError ("e" ++ toString i)
              else AttemptResult.response ⟨true, 200, "OK", some (Json.num 7)⟩)
    (fun i => AttemptResult.transportError ("e" ++ toString i)) (Json.num 7)
    (fun k hk => ⟨Json.str ("e" ++ toString k), by simp [runAttempt, hk]⟩)
    (by simp [runAttempt])
    (fun k => ⟨Json.str ("e" ++ toString k), rfl⟩)
  exact ⟨h.1, h.2.trans rfl⟩

/-- The exact event sequence the claim describes for a run of `m`
attempts starting at index `i`: attempt `i`, then for each further
attempt a sleep of exactly the next attempt's index followed by that
attempt — `[att i, sleep (i+1), att (i+1), …, sleep (i+m-1), att (i+m-1)]`
— with no sleep after the final attempt. -/
def backoffTrace : Nat → Nat → List Ev
  | _, 0 => []
  | i, m + 1 =>
      Ev.att i :: (if m = 0 then [] else Ev.sleep (i + 1) :: backoffTrace (i + 1) m)

theorem backoffTrace_succ (i m : Nat) :
    backoffTrace i (m + 1)
      = Ev.att i :: (if m = 0 then []
          else Ev.sleep (i + 1) :: backoffTrace (i + 1) m) := rfl

theorem reqGo_trace_eq_backoffTrace (oracle : Nat → Except KimError Json) :
    ∀ (rem i : Nat) (last : Option KimError),
      (reqGo oracle i rem last).fst
        = backoffTrace i (countAtt (reqGo oracle i rem last).fst) := by
  intro rem
  induction rem with
  | zero => intro i last; simp [reqGo, countAtt, backoffTrace]
  | succ r ih =>
      intro i last
      cases ho : oracle i with
      | ok j => simp [reqGo, ho, countAtt, backoffTrace]
      | error e =>
          cases e with
          | requestException m =>
              by_cases hr : 0 < r
              · obtain ⟨tl, htl⟩ :=
                  reqGo_head oracle r (i + 1) (some (KimError.requestException m)) hr
                have hih := ih (i + 1) (some (KimError.requestException m))
                have htr : (reqGo oracle i (r + 1) last).fst
                    = Ev.att i :: Ev.sleep (i + 1)
                      :: (reqGo oracle (i + 1) r (some (KimError.requestException m))).fst := by
                  rw [reqGo_succ_eq, ho]
                  simp [hr]
                rw [htr, htl]
                rw [htl] at hih
                have hc : countAtt (Ev.att i :: Ev.sleep (i + 1) :: Ev.att (i + 1) :: tl)
                    = countAtt tl + 1 + 1 := by simp [countAtt]
                have hc2 : countAtt (Ev.att (i + 1) :: tl) = countAtt tl + 1 := by
                  simp [countAtt]
                rw [hc]
                rw [hc2] at hih
                rw [backoffTrace_succ]
                rw [if_neg (show ¬(countAtt tl + 1 = 0) by omega)]
                rw [← hih]
              · have hr0 : r = 0 := by omega
                subst hr0
                simp [reqGo, ho, countAtt, backoffTrace]
          | keyError => simp [reqGo, ho, countAtt, backoffTrace]
          | typeError => simp [reqGo, ho, countAtt, backoffTrace]
          | attributeError => simp [reqGo, ho, countAtt, backoffTrace]

theorem sleepsOf_backoffTrace (m : Nat) :
    ∀ i, sleepsOf (backoffTrace i m) = List.range' (i + 1) (m - 1) := by
  induction m with
  | zero => intro i; simp [backoffTrace, sleepsOf]
  | succ m ih =>
      intro i
      by_cases hm : m = 0
      · subst hm; simp [backoffTrace, sleepsOf]
      · rw [backoffTrace_succ, if_neg hm]
        simp only [sleepsOf]
        rw [ih (i + 1)]
        obtain ⟨m', rfl⟩ := Nat.exists_eq_succ_of_ne_zero hm
        simp [List.range'_succ]

/-- C6: the trace of every `_request` run is exactly
`backoffTrace 0 m` where `m` is the number of attempts made — attempt 0,
then, before each retry `k` (`1 ≤ k ≤ m - 1`), a single sleep of exactly
`k` time units immediately between attempt `k - 1` and attempt `k`, and no
sleep after the final attempt; consequently the sleep durations are
exactly `[1, 2, …, m - 1]`. -/
theorem C6_backoff_schedule (retries : Int) (net : Nat → AttemptResult) :
    (KimDBClient._request retries net).fst
      = backoffTrace 0 (countAtt (KimDBClient._request retries net).fst) ∧
    sleepsOf (KimDBClient._request retries net).fst
      = List.range' 1 (countAtt (KimDBClient._request retries net).fst - 1) := by
  unfold KimDBClient._request
  have h1 := reqGo_trace_eq_backoffTrace (fun i => runAttempt (net i))
    ((retries + 1).toNat) 0 none
  refine ⟨h1, ?_⟩
  conv_lhs => rw [h1]
  rw [sleepsOf_backoffTrace]

/-- C4 counterexample: a non-success response whose body is a nonempty
JSON object without an `error` field.  The code's fallback is
`f'HTTP {response.status_code}'`; the reason phrase is used only when the
body text is empty.  Here the constructed error carries `"HTTP 500"`, not
the reason phrase `"Internal Server Error"` as the claim states. -/
theorem C4_counterexample :
    runAttempt (AttemptResult.response
        ⟨false, 500, "Internal Server Error", some (Json.obj [])⟩)
      = Except.error (KimError.requestException (Json.str ("HTTP " ++ toString 500))) ∧
    ("HTTP " ++ toString 500) ≠ "Internal Server Error" := by
  constructor
  · rfl
  · decide

/-- C4 (amended): for a non-success response the constructed error carries
the body's `error` field when the body is a JSON object containing one;
the HTTP reason phrase when the body text is empty; and the string
`HTTP status_code` when the body is a JSON object without an `error`
field. -/
theorem C4_amended (resp : HTTPResponse) (hok : resp.ok = false) :
    (∀ fields v, resp.body = some (Json.obj fields) → fields.lookup "error" = some v →
        runAttempt (AttemptResult.response resp)
          = Except.error (KimError.requestException v)) ∧
    (resp.body = none →
        runAttempt (AttemptResult.response resp)
          = Except.error (KimError.requestException (Json.str resp.reason))) ∧
    (∀ fields, resp.body = some (Json.obj fields) → fields.lookup "error" = none →
        runAttempt (AttemptResult.response resp)
          = Except.error (KimError.requestException
              (Json.str ("HTTP " ++ toString resp.status_code)))) := by
  refine ⟨?_, ?_, ?_⟩
  · intro fields v hbody herr
    simp [runAttempt, attemptErrorMsg, hok, hbody, herr]
  · intro hbody
    simp [runAttempt, attemptErrorMsg, hok, hbody, List.lookup]
  · intro fields hbody herr
    simp [runAttempt, attemptErrorMsg, hok, hbody, herr]

/-- Witness for C4 (amended): a 404 whose body supplies an `error` field;
the raised error carries that field. -/
theorem C4_amended_witness :
    runAttempt (AttemptResult.response
        ⟨false, 404, "Not Found", some (Json.obj [("error", Json.str "nope")])⟩)
      = Except.error (KimError.requestException (Json.str "nope")) :=
  (C4_amended ⟨false, 404, "Not Found", some (Json.obj [("error", Json.str "nope")])⟩
      rfl).1 [("error", Json.str "nope")] (Json.str "nope") rfl rfl

/-- `DocumentQuery` (`client.py:22-27`): optional limit / skip / sort. -/
structure DocumentQuery where
  limit : Option Int := none
  skip : Option Int := none
  sort : Option String := none

/-- Python truthiness of an `Optional[int]`: `None` and `0` are falsy. -/
def pyTruthyOptInt : Option Int → Bool
  | none => false
  | some n => n != 0

/-- Python truthiness of an `Optional[str]`: `None` and `""` are falsy. -/
def pyTruthyOptStr : Option String → Bool
  | none => false
  | some s => s != ""

/-- The query-parameter dict built by `get_collection`
(`client.py:152-159`): each of `limit`, `skip`, `sort` is added only when
the field is truthy (`if query.limit:` etc.), in that order. -/
def getCollectionParams (query : Option DocumentQuery) : List (String × Json) :=
  match query with
  | none => []
  | some q =>
      let p0 : List (String × Json) := []
      let p1 := if pyTruthyOptInt q.limit then p0 ++ [("limit", Json.num (q.limit.getD 0))] else p0
      let p2 := if pyTruthyOptInt q.skip then p1 ++ [("skip", Json.num (q.skip.getD 0))] else p1
      let p3 := if pyTruthyOptStr q.sort then p2 ++ [("sort", Json.str (q.sort.getD ""))] else p2
      p3

/-- C5 counterexample: a query with `limit = 0`, `skip = 0` and
`sort = ""` — all three explicitly set (not `None`) — produces an empty
parameter dict, contradicting the claim that an explicitly set `0` or
empty string is included. -/
theorem C5_counterexample :
    (some (0 : Int) ≠ (none : Option Int)) ∧
    getCollectionParams (some ⟨some 0, some 0, some ""⟩) = [] := by
  constructor
  · simp
  · rfl

/-- C5 (amended): each of `limit`, `skip`, `sort` is included in the query
parameters (with the value that was set) if and only if the field is set
to a Python-truthy value; fields that are unset, or set to `0` or the
empty string, are omitted. -/
theorem C5_amended (q : DocumentQuery) :
    ((getCollectionParams (some q)).lookup "limit"
        = if pyTruthyOptInt q.limit then some (Json.num (q.limit.getD 0)) else none) ∧
    ((getCollectionParams (some q)).lookup "skip"
        = if pyTruthyOptInt q.skip then some (Json.num (q.skip.getD 0)) else none) ∧
    ((getCollectionParams (some q)).lookup "sort"
        = if pyTruthyOptStr q.sort then some (Json.str (q.sort.getD "")) else none) := by
  rcases q with ⟨l, s, so⟩
  cases l <;> cases s <;> cases so <;>
    simp [getCollectionParams, pyTruthyOptInt, pyTruthyOptStr, List.lookup] <;>
    split_ifs <;> simp_all [List.lookup] <;>
    (intro a b hab; rcases hab with ⟨rfl, -⟩ | ⟨rfl, -⟩ <;> decide)

/-- Python exceptions arising in `websocket.py`. -/
inductive PyExc
  | timeoutError (msg : String)
  | connectionError (msg : String)
  | runtimeError (msg : String)
  | genericError (msg : String)
  | attributeError

/-- Python `str(exception)`: the exception's message. -/
def pyExcStr : PyExc → String
  | PyExc.timeoutError m => m
  | PyExc.connectionError m => m
  | PyExc.runtimeError m => m
  | PyExc.genericError m => m
  | PyExc.attributeError => "AttributeError"

namespace KimDBWebSocket

/-- `KimDBWebSocket.connect` (`websocket.py:127-157`), abstracted over the
environment: `setupError` is `some e` when constructing or starting the
transport raises an exception with message `e`, and `becomesConnected`
records whether the polling loop `while not self.connected and
(time.time() - start_time) < timeout` observes the connected flag become
true before `timeout` seconds elapse.  The whole body — including the
`raise TimeoutError(f"Connection timeout after {timeout} seconds")` — sits
inside a `try` whose handler is
`except Exception as error: raise ConnectionError(f"Failed to connect: {error}")`. -/
def connect (setupError : Option String) (becomesConnected : Bool)
    (timeout : Nat) : Except PyExc Unit :=
  let body : Except PyExc Unit :=
    match setupError with
    | some e => Except.error (PyExc.genericError e)
    | none =>
        if becomesConnected then Except.ok ()
        else Except.error (PyExc.timeoutError
          ("Connection timeout after " ++ toString timeout ++ " seconds"))
  match body with
  | Except.ok _ => Except.ok ()
  | Except.error e =>
      Except.error (PyExc.connectionError ("Failed to connect: " ++ pyExcStr e))

end KimDBWebSocket

/-- C3: evaluation of `connect` at the failing input (the connected flag
never becomes true within the timeout) and at a setup failure.  Both paths
raise `ConnectionError`: the `TimeoutError` raised inside the `try` block
is caught by `except Exception` and re-wrapped, so the timeout error
reaching the caller is not distinct from the connection error — contrary
to the claim and to the intent evident in the `raise TimeoutError` line. -/
theorem C3_timeout_not_distinct :
    KimDBWebSocket.connect none false 10
      = Except.error (PyExc.connectionError
          ("Failed to connect: Connection timeout after " ++ toString 10 ++ " seconds")) ∧
    KimDBWebSocket.connect (some "refused") false 10
      = Except.error (PyExc.connectionError "Failed to connect: refused") := by
  constructor <;> rfl

/-- Mutable state of a `KimDBWebSocket` relevant to the outbound actions:
the connected flag, the node identifier, and the log of JSON messages
passed to `self.ws.send` (in order). -/
structure WSState where
  connected : Bool
  node_id : String
  sent : List Json

namespace KimDBWebSocket

/-- `subscribe` (`websocket.py:159-170`). -/
def subscribe (st : WSState) (collection : String) : Option PyExc × WSState :=
  if !st.connected then (some (PyExc.runtimeError "WebSocket not connected"), st)
  else (none, { st with sent := st.sent ++
    [Json.obj [("type", Json.str "subscribe"), ("collection", Json.str collection)]] })

/-- `subscribe_document` (`websocket.py:172-188`). -/
def subscribe_document (st : WSState) (collection docId : String) :
    Option PyExc × WSState :=
  if !st.connected then (some (PyExc.runtimeError "WebSocket not connected"), st)
  else (none, { st with sent := st.sent ++
    [Json.obj [("type", Json.str "doc.subscribe"), ("collection", Json.str collection),
      ("docId", Json.str docId)]] })

/-- `update_document` (`websocket.py:190-214`). -/
def update_document (st : WSState) (collection docId : String) (data : Json) :
    Option PyExc × WSState :=
  if !st.connected then (some (PyExc.runtimeError "WebSocket not connected"), st)
  else (none, { st with sent := st.sent ++
    [Json.obj [("type", Json.str "doc.update"), ("collection", Json.str collection),
      ("docId", Json.str docId), ("data", data), ("nodeId", Json.str st.node_id)]] })

/-- `undo` (`websocket.py:216-233`). -/
def undo (st : WSState) (collection docId : String) : Option PyExc × WSState :=
  if !st.connected then (some (PyExc.runtimeError "WebSocket not connected"), st)
  else (none, { st with sent := st.sent ++
    [Json.obj [("type", Json.str "doc.undo"), ("collection", Json.str collection),
      ("docId", Json.str docId), ("nodeId", Json.str st.node_id)]] })

/-- `redo` (`websocket.py:235-252`). -/
def redo (st : WSState) (collection docId : String) : Option PyExc × WSState :=
  if !st.connected then (some (PyExc.runtimeError "WebSocket not connected"), st)
  else (none, { st with sent := st.sent ++
    [Json.obj [("type", Json.str "doc.redo"), ("collection", Json.str collection),
      ("docId", Json.str docId), ("nodeId", Json.str st.node_id)]] })

/-- `update_presence` (`websocket.py:254-278`). -/
def update_presence (st : WSState) (collection docId : String) (presence : Json) :
    Option PyExc × WSState :=
  if !st.connected then (some (PyExc.runtimeError "WebSocket not connected"), st)
  else (none, { st with sent := st.sent ++
    [Json.obj [("type", Json.str "presence.update"), ("collection", Json.str collection),
      ("docId", Json.str docId), ("nodeId", Json.str st.node_id), ("presence", presence)]] })

end KimDBWebSocket

/-- C7: when the connected flag is false, each of the six outbound actions
raises `RuntimeError('WebSocket not connected')` and returns the state
unchanged — in particular nothing is appended to the send log. -/
theorem C7_not_connected_guard (st : WSState) (h : st.connected = false)
    (collection docId : String) (data presence : Json) :
    KimDBWebSocket.subscribe st collection
      = (some (PyExc.runtimeError "WebSocket not connected"), st) ∧
    KimDBWebSocket.subscribe_document st collection docId
      = (some (PyExc.runtimeError "WebSocket not connected"), st) ∧
    KimDBWebSocket.update_document st collection docId data
      = (some (PyExc.runtimeError "WebSocket not connected"), st) ∧
    KimDBWebSocket.undo st collection docId
      = (some (PyExc.runtimeError "WebSocket not connected"), st) ∧
    KimDBWebSocket.redo st collection docId
      = (some (PyExc.runtimeError "WebSocket not connected"), st) ∧
    KimDBWebSocket.update_presence st collection docId presence
      = (some (PyExc.runtimeError "WebSocket not connected"), st) := by
  refine ⟨?_, ?_, ?_, ?_, ?_, ?_⟩ <;>
    simp [KimDBWebSocket.subscribe, KimDBWebSocket.subscribe_document,
      KimDBWebSocket.update_document, KimDBWebSocket.undo, KimDBWebSocket.redo,
      KimDBWebSocket.update_presence, h]

/-- Witness for C7 at a concrete disconnected state. -/
theorem C7_not_connected_guard_witness :
    KimDBWebSocket.subscribe ⟨false, "n1", []⟩ "users"
      = (some (PyExc.runtimeError "WebSocket not connected"), ⟨false, "n1", []⟩) ∧
    KimDBWebSocket.update_document ⟨false, "n1", []⟩ "users" "d1" (Json.obj [])
      = (some (PyExc.runtimeError "WebSocket not connected"), ⟨false, "n1", []⟩) := by
  have h := C7_not_connected_guard ⟨false, "n1", []⟩ rfl "users" "d1"
    (Json.obj []) (Json.obj [])
  exact ⟨h.1, h.2.2.1⟩

namespace KimDBWebSocket

/-- One callback invocation trace entry: the callback's registration handle
and the payload it was called with. -/
def runCallbacks (behav : Nat → Json → Except PyExc Unit) :
    List Nat → Json → List (Nat × Json)
  | [], _ => []
  | c :: rest, d =>
      match behav c d with
      | Except.ok _ => (c, d) :: runCallbacks behav rest d
      | Except.error _ => (c, d) :: runCallbacks behav rest d

/-- `_emit` (`websocket.py:53-60`): when the event name is registered,
every callback in the registered list is invoked in order with the data;
the `try`/`except Exception` around each call logs a raising callback and
continues, so both outcomes of `behav` record the invocation and proceed
(`runCallbacks`).  `behav c d` is the behaviour (normal return or raise)
of callback `c` on payload `d`; `reg` maps event names to the ordered list
of registered callback handles. -/
def _emit (reg : List (String × List Nat)) (behav : Nat → Json → Except PyExc Unit)
    (event : String) (data : Json) : List (Nat × Json) :=
  match reg.lookup event with
  | some cbs => runCallbacks behav cbs data
  | none => []

/-- The `type`-dispatch of `_handle_message` (`websocket.py:78-112`) on a
dict message: returns the emitted `(event, payload)` pair, or `none` for
an absent, non-string or unrecognised `type`. -/
def dispatchFields (message : List (String × Json)) : Option (String × Json) :=
  match message.lookup "type" with
  | some (Json.str t) =>
      if t = "subscribed" then
        some ("subscribed",
          Json.obj [("collection", (message.lookup "collection").getD Json.null)])
      else if t = "doc.synced" then
        some ("doc.synced", Json.obj [
          ("collection", (message.lookup "collection").getD Json.null),
          ("docId", (message.lookup "docId").getD Json.null),
          ("data", (message.lookup "data").getD Json.null),
          ("version", (message.lookup "_version").getD Json.null)])
      else if t = "doc.updated" then
        some ("doc.updated", Json.obj [
          ("docId", (message.lookup "docId").getD Json.null),
          ("success", (message.lookup "success").getD Json.null),
          ("version", (message.lookup "_version").getD Json.null)])
      else if t = "presence.changed" then
        some ("presence.changed", Json.obj [
          ("docId", (message.lookup "docId").getD Json.null),
          ("nodeId", (message.lookup "nodeId").getD Json.null),
          ("presence", (message.lookup "presence").getD Json.null)])
      else if t = "pong" then
        some ("pong", Json.obj [("timestamp", (message.lookup "timestamp").getD Json.null)])
      else if t = "error" then
        some ("error",
          Json.obj [("message", (message.lookup "error").getD (Json.str "Unknown error"))])
      else none
  | _ => none

/-- `_handle_message` (`websocket.py:78-112`) on an arbitrary parsed JSON
value: `message.get('type')` raises `AttributeError` unless the value is a
dict (JSON object). -/
def _handle_message (m : Json) : Except PyExc (Option (String × Json)) :=
  match m with
  | Json.obj fields => Except.ok (dispatchFields fields)
  | _ => Except.error PyExc.attributeError

/-- `_on_message` (`websocket.py:70-76`), abstracted over the result of
`json.loads(message)`: `none` models text that fails to parse (the
`json.JSONDecodeError` is caught, logged and the frame dropped); `some m`
models text parsing as `m`, which is passed to `_handle_message` outside
the protection of any handler other than the decode-error one. -/
def _on_message (parsed : Option Json) : Except PyExc (Option (String × Json)) :=
  match parsed with
  | none => Except.ok none
  | some m => _handle_message m

end KimDBWebSocket

theorem runCallbacks_eq_map (behav : Nat → Json → Except PyExc Unit)
    (cbs : List Nat) (d : Json) :
    KimDBWebSocket.runCallbacks behav cbs d = cbs.map (fun c => (c, d)) := by
  induction cbs with
  | nil => rfl
  | cons c rest ih =>
      cases hb : behav c d <;> simp [KimDBWebSocket.runCallbacks, hb, ih]

/-- C8: a well-formed frame of type `doc.updated` produces the payload
`docId` / `success` / `version` (the latter read from the frame's
`_version` field), and emitting it invokes every callback registered under
`doc.updated`, in registration order, each with that payload — regardless
of which callbacks raise (`behav` is arbitrary). -/
theorem C8_doc_updated_dispatch (fields : List (String × Json))
    (h : fields.lookup "type" = some (Json.str "doc.updated"))
    (reg : List (String × List Nat)) (cbs : List Nat)
    (hreg : reg.lookup "doc.updated" = some cbs)
    (behav : Nat → Json → Except PyExc Unit) :
    KimDBWebSocket._handle_message (Json.obj fields)
      = Except.ok (some ("doc.updated", Json.obj [
          ("docId", (fields.lookup "docId").getD Json.null),
          ("success", (fields.lookup "success").getD Json.null),
          ("version", (fields.lookup "_version").getD Json.null)])) ∧
    KimDBWebSocket._emit reg behav "doc.updated" (Json.obj [
          ("docId", (fields.lookup "docId").getD Json.null),
          ("success", (fields.lookup "success").getD Json.null),
          ("version", (fields.lookup "_version").getD Json.null)])
      = cbs.map (fun c => (c, Json.obj [
          ("docId", (fields.lookup "docId").getD Json.null),
          ("success", (fields.lookup "success").getD Json.null),
          ("version", (fields.lookup "_version").getD Json.null)])) := by
  constructor
  · simp [KimDBWebSocket._handle_message, KimDBWebSocket.dispatchFields, h]
  · simp [KimDBWebSocket._emit, hreg, runCallbacks_eq_map]

/-- Witness for C8: the spec's example frame
`{"type":"doc.updated","docId":"d1","success":true,"_version":2}` with two
registered listeners, the first of which raises: both are invoked in
order with payload `{docId:"d1", success:true, version:2}`. -/
theorem C8_doc_updated_dispatch_witness :
    KimDBWebSocket._handle_message (Json.obj [("type", Json.str "doc.updated"),
        ("docId", Json.str "d1"), ("success", Json.bool true), ("_version", Json.num 2)])
      = Except.ok (some ("doc.updated", Json.obj [("docId", Json.str "d1"),
          ("success", Json.bool true), ("version", Json.num 2)])) ∧
    KimDBWebSocket._emit [("doc.updated", [0, 1])]
        (fun c _ => if c = 0 then Except.error (PyExc.runtimeError "boom") else Except.ok ())
        "doc.updated"
        (Json.obj [("docId", Json.str "d1"), ("success", Json.bool true),
          ("version", Json.num 2)])
      = [(0, Json.obj [("docId", Json.str "d1"), ("success", Json.bool true),
          ("version", Json.num 2)]),
         (1, Json.obj [("docId", Json.str "d1"), ("success", Json.bool true),
          ("version", Json.num 2)])] := by
  have h := C8_doc_updated_dispatch [("type", Json.str "doc.updated"),
    ("docId", Json.str "d1"), ("success", Json.bool true), ("_version", Json.num 2)]
    rfl [("doc.updated", [0, 1])] [0, 1] rfl
    (fun c _ => if c = 0 then Except.error (PyExc.runtimeError "boom") else Except.ok ())
  exact ⟨h.1, h.2⟩

/-- Whether a JSON value is an object (a Python dict after `json.loads`). -/
def Json.isObj : Json → Bool
  | Json.obj _ => true
  | _ => false

/-- C10: the inbound handler is total exactly on non-JSON text and JSON
objects.  Text that fails to parse is dropped (only `json.JSONDecodeError`
is caught); text parsing to a JSON object is handled; but text parsing to
any non-object JSON value (array, number, string, boolean, null) raises
`AttributeError` from `message.get('type')`, which no handler catches. -/
theorem C10_non_object_frames_raise :
    (∀ j : Json, j.isObj = false →
        KimDBWebSocket._on_message (some j) = Except.error PyExc.attributeError) ∧
    KimDBWebSocket._on_message none = Except.ok none ∧
    (∀ fields, KimDBWebSocket._on_message (some (Json.obj fields))
        = Except.ok (KimDBWebSocket.dispatchFields fields)) := by
  refine ⟨?_, rfl, fun fields => rfl⟩
  intro j h
  cases j <;> simp_all [Json.isObj, KimDBWebSocket._on_message, KimDBWebSocket._handle_message]

/-- Witness for C10: a frame parsing to the JSON array `[]` raises
`AttributeError`; an unparsable frame is dropped. -/
theorem C10_non_object_frames_raise_witness :
    KimDBWebSocket._on_message (some (Json.arr []))
      = Except.error PyExc.attributeError ∧
    KimDBWebSocket._on_message none = Except.ok none :=
  ⟨C10_non_object_frames_raise.1 (Json.arr []) rfl, C10_non_object_frames_raise.2.1⟩

/-- Python `str()` on a parsed-JSON scalar value (`str(row[field])` in
`group_by`).  The textual repr of lists and dicts is not modelled — every
theorem below is parametric in `pyStr`'s value on containers, so nothing
depends on those two branches. -/
def pyStr : Json → String
  | Json.null => "None"
  | Json.bool true => "True"
  | Json.bool false => "False"
  | Json.num n => toString n
  | Json.str s => s
  | Json.arr _ => "[unmodelled list repr]"
  | Json.obj _ => "[unmodelled dict repr]"

/-- Python dict assignment `d[k] = v` on an association list: an existing
binding for `k` is updated in place, otherwise `(k, v)` is appended. -/
def pyDictInsert : List (String × Json) → String → Json → List (String × Json)
  | [], k, v => [(k, v)]
  | (k', v') :: rest, k, v =>
      if k' = k then (k, v) :: rest else (k', v') :: pyDictInsert rest k v

namespace KimDBClient

/-- The SQL string built by `group_by` (`client.py:248-251`). -/
def groupBySql (collection field : String) : String :=
  "SELECT " ++ field ++ ", COUNT(*) as count FROM " ++ collection ++
    " GROUP BY " ++ field

/-- The row loop of `group_by` (`client.py:253-255`):
`result[str(row[field])] = row.get('count', 0)` for each row in order.
`row[field]` raises `KeyError` when the field is absent and `TypeError`
when the row is not a dict. -/
def group_by_rows (field : String) :
    List Json → List (String × Json) → Except KimError (List (String × Json))
  | [], acc => Except.ok acc
  | row :: rest, acc =>
      match row with
      | Json.obj rf =>
          match rf.lookup field with
          | some v => group_by_rows field rest
              (pyDictInsert acc (pyStr v) ((rf.lookup "count").getD (Json.num 0)))
          | none => Except.error KimError.keyError
      | _ => Except.error KimError.typeError

/-- `group_by` (`client.py:237-257`) applied to the JSON response of the
issued query: folds `response.get('rows', [])` into the result dict.
`response.get` raises `AttributeError` on a non-dict response; iterating
a non-list `rows` value is modelled as `TypeError` (the embedded domain
does not include a string-valued `rows`). -/
def group_by (field : String) (response : Json) :
    Except KimError (List (String × Json)) :=
  match response with
  | Json.obj rfields =>
      match (rfields.lookup "rows").getD (Json.arr []) with
      | Json.arr rows => group_by_rows field rows []
      | _ => Except.error KimError.typeError
  | _ => Except.error KimError.attributeError

end KimDBClient

/-- The count of the last row whose stringified `field` value is `key`
(`none` when no row matches): the reference characterisation of
last-write-wins over the row sequence. -/
def lastRowCount (field key : String) (rows : List (List (String × Json))) :
    Option Json :=
  (rows.reverse.find? (fun r => pyStr ((r.lookup field).getD Json.null) = key)).map
    (fun r => (r.lookup "count").getD (Json.num 0))

theorem lookup_pyDictInsert (d : List (String × Json)) (k : String) (v : Json)
    (k' : String) :
    (pyDictInsert d k v).lookup k' = if k' = k then some v else d.lookup k' := by
  induction d with
  | nil =>
      by_cases hk : k' = k
      · subst hk; simp [pyDictInsert, List.lookup]
      · have hb : (k' == k) = false := beq_eq_false_iff_ne.mpr hk
        simp [pyDictInsert, List.lookup, hb, hk]
  | cons p rest ih =>
      obtain ⟨k1, v1⟩ := p
      by_cases h1 : k1 = k
      · subst h1
        by_cases hk : k' = k1
        · subst hk; simp [pyDictInsert, List.lookup]
        · have hb : (k' == k1) = false := beq_eq_false_iff_ne.mpr hk
          simp [pyDictInsert, List.lookup, hb, hk]
      · by_cases hk : k' = k1
        · subst hk
          have hkk : ¬ k' = k := h1
          simp [pyDictInsert, List.lookup, h1, hkk]
        · have hb : (k' == k1) = false := beq_eq_false_iff_ne.mpr hk
          simp [pyDictInsert, List.lookup, h1, hb, ih]

theorem group_by_rows_eq_foldl (field : String) (rows : List (List (String × Json)))
    (h : ∀ r ∈ rows, (r.lookup field).isSome) :
    ∀ acc, KimDBClient.group_by_rows field (rows.map Json.obj) acc
      = Except.ok (rows.foldl (fun acc r =>
          pyDictInsert acc (pyStr ((r.lookup field).getD Json.null))
            ((r.lookup "count").getD (Json.num 0))) acc) := by
  induction rows with
  | nil => intro acc; rfl
  | cons r rest ih =>
      intro acc
      have hr : (r.lookup field).isSome := h r (List.mem_cons_self r rest)
      obtain ⟨v, hv⟩ := Option.isSome_iff_exists.mp hr
      have hrest : ∀ x ∈ rest, (x.lookup field).isSome :=
        fun x hx => h x (List.mem_cons_of_mem r hx)
      simp only [List.map_cons, KimDBClient.group_by_rows, hv, List.foldl_cons]
      rw [ih hrest]
      simp [hv]

theorem foldl_pyDictInsert_lookup (field key : String) :
    ∀ (rows : List (List (String × Json))) (acc : List (String × Json)),
      (rows.foldl (fun acc r =>
          pyDictInsert acc (pyStr ((r.lookup field).getD Json.null))
            ((r.lookup "count").getD (Json.num 0))) acc).lookup key
        = (lastRowCount field key rows).or (acc.lookup key) := by
  intro rows
  induction rows with
  | nil => intro acc; simp [lastRowCount]
  | cons r rest ih =>
      intro acc
      simp only [List.foldl_cons]
      rw [ih]
      simp only [lastRowCount, List.reverse_cons, List.find?_append]
      cases hfind : rest.reverse.find?
          (fun r => pyStr ((r.lookup field).getD Json.null) = key) with
      | some rr => simp [hfind]
      | none =>
          simp only [hfind, Option.map_none', Option.none_or]
          rw [lookup_pyDictInsert]
          by_cases hkey : key = pyStr ((r.lookup field).getD Json.null)
          · subst hkey
            simp [List.find?]
          · have hns : ¬ pyStr ((r.lookup field).getD Json.null) = key :=
              fun hc => hkey hc.symm
            simp [List.find?, hns, hkey]

/-- C9: when every row is a dict containing the grouped field, `group_by`
succeeds and the resulting dict maps each stringified key to the `count`
value (default 0) of the last row in the server's order whose stringified
field value is that key — a left-to-right fold in which a later duplicate
key overwrites an earlier one. -/
theorem C9_group_by_last_write_wins (field : String)
    (rows : List (List (String × Json)))
    (h : ∀ r ∈ rows, (r.lookup field).isSome) :
    ∃ d, KimDBClient.group_by field
        (Json.obj [("rows", Json.arr (rows.map Json.obj))]) = Except.ok d ∧
      ∀ key, d.lookup key = lastRowCount field key rows := by
  refine ⟨rows.foldl (fun acc r =>
      pyDictInsert acc (pyStr ((r.lookup field).getD Json.null))
        ((r.lookup "count").getD (Json.num 0))) [], ?_, ?_⟩
  · have hred : KimDBClient.group_by field
        (Json.obj [("rows", Json.arr (rows.map Json.obj))])
        = KimDBClient.group_by_rows field (rows.map Json.obj) [] := rfl
    rw [hred, group_by_rows_eq_foldl field rows h []]
  · intro key
    rw [foldl_pyDictInsert_lookup]
    simp [List.lookup]

/-- Witness for C9: the spec's example —
rows `[{"role":"admin","count":2},{"role":"user","count":5}]` grouped by
`role` — with the resulting dict looked up pointwise. -/
theorem C9_group_by_last_write_wins_witness :
    ∃ d, KimDBClient.group_by "role"
        (Json.obj [("rows", Json.arr
          [Json.obj [("role", Json.str "admin"), ("count", Json.num 2)],
           Json.obj [("role", Json.str "user"), ("count", Json.num 5)]])])
        = Except.ok d ∧
      ∀ key, d.lookup key = lastRowCount "role" key
        [[("role", Json.str "admin"), ("count", Json.num 2)],
         [("role", Json.str "user"), ("count", Json.num 5)]] := by
  have h := C9_group_by_last_write_wins "role"
    [[("role", Json.str "admin"), ("count", Json.num 2)],
     [("role", Json.str "user"), ("count", Json.num 5)]]
    (by
      intro r hr
      rcases List.mem_cons.mp hr with h1 | h1
      · subst h1; rfl
      · rcases List.mem_cons.mp h1 with h2 | h2
        · subst h2; rfl
        · simp at h2)
  exact h
